import Mathlib

set_option linter.unusedVariables false

/-
Shallow embedding of the cli-p2p-client signaling client (src/main.go).

The program is a WebRTC signaling client: a `Client` holds a websocket
connection, its own peer id, and two Go maps `peerConns` and `dataChannels`.
A dispatcher goroutine (`handleIncomingMessages`) reads JSON envelopes and
routes them by `type`; a command loop reads lines and issues
`Register` / `ConnectToPeer` / `SendMessage`.

Modelling choices:
- Go maps become association lists with overwrite-on-insert (`insertA`).
- `*webrtc.PeerConnection` and `*webrtc.DataChannel` values become Nat
  handles allocated from counters, so instance identity is observable.
- The excluded pion/webrtc collaborator is an oracle (`NegEnv`): the n-th
  collaborator call made by the client (counted in `ClientState.ops`)
  succeeds or fails as the oracle dictates, and created offers/answers carry
  the oracle's SDP blob.
- Side effects are event traces on the state: `outbound` (WriteJSON),
  `logs` (the log package), `console` (fmt printing), `sends`
  (DataChannel.SendText). Websocket writes are modelled as succeeding:
  WriteJSON failures are transport-level and outside every claim.
- JSON payloads are a small JSON value type `JVal`; the per-kind payload
  decoding mirrors encoding/json on the shapes the client declares.
-/

namespace P2P

/-- JSON-like values: the payload bytes carried by a decoded envelope
(Go `json.RawMessage` inside a well-formed frame). -/
inductive JVal : Type where
  | null : JVal
  | str : String → JVal
  | num : Int → JVal
  | obj : List (String × JVal) → JVal

/-- Field lookup in a JSON object; with duplicate keys encoding/json lets the
later one win, hence the left fold. -/
def jlookup (fs : List (String × JVal)) (k : String) : Option JVal :=
  fs.foldl (fun acc p => if p.1 = k then some p.2 else acc) none

/-- Decode of the `registered` payload struct `{peerId: string}`, mirroring
encoding/json: an absent/nil RawMessage errors, JSON null leaves the zero
value, a missing field leaves the empty string, a non-string field errors,
a payload that is not an object errors. -/
def decodeRegisteredPayload : Option JVal → Except Unit String
  | none => .error ()
  | some .null => .ok ""
  | some (.obj fs) =>
      match jlookup fs "peerId" with
      | none => .ok ""
      | some (.str s) => .ok s
      | some _ => .error ()
  | some _ => .error ()

/-- webrtc.SessionDescription as far as this client observes it: a type tag
and an SDP blob. -/
structure SessionDesc where
  tp : String
  sdp : String
  deriving DecidableEq, Repr

/-- Zero value of a SessionDescription. -/
def zeroSD : SessionDesc := ⟨"", ""⟩

/-- Best-effort decode of a string-typed JSON field together with an error
flag (encoding/json fills what it can, skips a mismatched field, and reports
the first type error at the end). -/
def decodeStrField (fs : List (String × JVal)) (k : String) : String × Bool :=
  match jlookup fs k with
  | none => ("", false)
  | some (.str s) => (s, false)
  | some _ => ("", true)

/-- Best-effort decode of a SessionDescription value with an error flag. -/
def decodeSD : JVal → SessionDesc × Bool
  | .null => (zeroSD, false)
  | .obj fs =>
      let t := decodeStrField fs "type"
      let d := decodeStrField fs "sdp"
      (⟨t.1, d.1⟩, t.2 || d.2)
  | _ => (zeroSD, true)

/-- Best-effort decode of the inbound `offer` / `answer` payload structs
`{offer/answer: SessionDescription, source: string}`; the field name of the
description is the parameter. Returns the (possibly partially filled) values
together with the error flag, because the dispatcher ignores the error for
these kinds and uses the values regardless. -/
def decodeDescPayload (key : String) : Option JVal → (SessionDesc × String) × Bool
  | none => ((zeroSD, ""), true)
  | some .null => ((zeroSD, ""), false)
  | some (.obj fs) =>
      let sd := match jlookup fs key with
        | none => (zeroSD, false)
        | some v => decodeSD v
      let src := decodeStrField fs "source"
      ((sd.1, src.1), sd.2 || src.2)
  | some _ => ((zeroSD, ""), true)

/-- webrtc.ICECandidateInit as far as this client observes it: the candidate
string (the optional fields are never read by the client). -/
def decodeCandInit : JVal → String × Bool
  | .null => ("", false)
  | .obj fs => decodeStrField fs "candidate"
  | _ => ("", true)

/-- Best-effort decode of the inbound `ice-candidate` payload struct
`{candidate: ICECandidateInit, source: string}`. -/
def decodeICEPayload : Option JVal → (String × String) × Bool
  | none => (("", ""), true)
  | some .null => (("", ""), false)
  | some (.obj fs) =>
      let cand := match jlookup fs "candidate" with
        | none => ("", false)
        | some v => decodeCandInit v
      let src := decodeStrField fs "source"
      ((cand.1, src.1), cand.2 || src.2)
  | some _ => (("", ""), true)

/-- A decoded relay envelope: Go struct `Message{Type string; Payload
json.RawMessage}`; `payload` is `none` when the field is absent (nil
RawMessage). -/
structure InMessage where
  type : String
  payload : Option JVal

/-- Payloads of outbound envelopes as the client builds them: `register` has
no payload; `offer` / `answer` are built by Sprintf with a target and the
raw description blob. -/
inductive OutPayload : Type where
  | empty : OutPayload
  | offerP (target : String) (blob : String) : OutPayload
  | answerP (target : String) (blob : String) : OutPayload
  deriving DecidableEq, Repr

/-- An outbound envelope written to the websocket. -/
structure OutMsg where
  type : String
  payload : OutPayload
  deriving DecidableEq, Repr

/-- Entries of the log-package trace, one per log call site in the source. -/
inductive LogEntry : Type where
  | sendingRegister : LogEntry
  | registerSent : LogEntry
  | recvType (t : String) : LogEntry
  | fullMsg : LogEntry
  | unmarshalRegisteredErr : LogEntry
  | emptyPeerID : LogEntry
  | registeredAs (p : String) : LogEntry
  | errCreatePC : LogEntry
  | errSetRemote : LogEntry
  | errCreateAnswer : LogEntry
  | errSetLocal : LogEntry
  | wsClosedUnexpected : LogEntry
  | readError : LogEntry
  deriving DecidableEq, Repr

/-- Entries of the fmt (user-facing console) trace. -/
inductive ConsoleMsg : Type where
  | registeredAs (p : String) : ConsoleMsg
  | dataChannelOpened (p : String) : ConsoleMsg
  | recvFromPeer (p : String) (m : String) : ConsoleMsg
  | messageSent (p : String) (m : String) : ConsoleMsg
  | noOpenChannel (p : String) : ConsoleMsg
  | usageConnect : ConsoleMsg
  | usageSend : ConsoleMsg
  | unknownCmd : ConsoleMsg
  | errConnecting : ConsoleMsg
  deriving DecidableEq, Repr

/-- Go map read `m[k]`. -/
def lookupA {α β : Type} [DecidableEq α] : List (α × β) → α → Option β
  | [], _ => none
  | p :: rest, k => if p.1 = k then some p.2 else lookupA rest k

/-- Go map write `m[k] = v`: replaces the binding if present, appends it
otherwise. -/
def insertA {α β : Type} [DecidableEq α] : List (α × β) → α → β → List (α × β)
  | [], k, v => [(k, v)]
  | p :: rest, k, v => if p.1 = k then (k, v) :: rest else p :: insertA rest k v

/-- The observable state of a `Client` together with the event traces of its
side effects. `NewClient` yields the default state. -/
structure ClientState where
  peerID : String := ""
  peerConns : List (String × Nat) := []
  dataChannels : List (String × Nat) := []
  openCbs : List (Nat × String) := []
  msgCbs : List (Nat × String) := []
  onDCCbs : List (Nat × String) := []
  outbound : List OutMsg := []
  logs : List LogEntry := []
  console : List ConsoleMsg := []
  sends : List (Nat × String) := []
  ops : Nat := 0
  nextPC : Nat := 0
  nextDC : Nat := 0
  deriving DecidableEq, Repr

/-- The state right after `NewClient`: empty maps, no identity, no traces. -/
def initState : ClientState := {}

/-- The excluded pion/webrtc collaborator as an oracle over the call counter. -/
structure NegEnv where
  pcFail : Nat → Bool
  dcFail : Nat → Bool
  createOfferFail : Nat → Bool
  offerSDPAt : Nat → String
  createAnswerFail : Nat → Bool
  answerSDPAt : Nat → String
  setLocalFail : Nat → Bool
  setRemoteFail : Nat → Bool
  addICEFail : Nat → Bool

/-- Consume one collaborator-call index. -/
def tick (s : ClientState) : Nat × ClientState :=
  (s.ops, { s with ops := s.ops + 1 })

/-- webrtc.NewPeerConnection: on success a fresh connection handle. -/
def newPeerConnection (env : NegEnv) (s : ClientState) : Option Nat × ClientState :=
  let r := tick s
  if env.pcFail r.1 then (none, r.2)
  else (some r.2.nextPC, { r.2 with nextPC := r.2.nextPC + 1 })

/-- PeerConnection.CreateDataChannel: on success a fresh channel handle. -/
def createDataChannel (env : NegEnv) (s : ClientState) : Option Nat × ClientState :=
  let r := tick s
  if env.dcFail r.1 then (none, r.2)
  else (some r.2.nextDC, { r.2 with nextDC := r.2.nextDC + 1 })

/-- PeerConnection.CreateOffer: on success the oracle's SDP blob. -/
def createOffer (env : NegEnv) (s : ClientState) : Option String × ClientState :=
  let r := tick s
  if env.createOfferFail r.1 then (none, r.2) else (some (env.offerSDPAt r.1), r.2)

/-- PeerConnection.CreateAnswer: on success the oracle's SDP blob. -/
def createAnswer (env : NegEnv) (s : ClientState) : Option String × ClientState :=
  let r := tick s
  if env.createAnswerFail r.1 then (none, r.2) else (some (env.answerSDPAt r.1), r.2)

/-- PeerConnection.SetLocalDescription: true on success. -/
def setLocalDescription (env : NegEnv) (s : ClientState) : Bool × ClientState :=
  let r := tick s
  (!env.setLocalFail r.1, r.2)

/-- PeerConnection.SetRemoteDescription: true on success. -/
def setRemoteDescription (env : NegEnv) (s : ClientState) : Bool × ClientState :=
  let r := tick s
  (!env.setRemoteFail r.1, r.2)

/-- PeerConnection.AddICECandidate: true on success. -/
def addICECandidate (env : NegEnv) (s : ClientState) : Bool × ClientState :=
  let r := tick s
  (!env.addICEFail r.1, r.2)

/-- setupDataChannel: registers the OnOpen and OnMessage callbacks of a data
channel for a peer (a later registration on the same channel replaces the
handler, as in pion). -/
def setupDataChannel (dc : Nat) (peerID : String) (s : ClientState) : ClientState :=
  { s with openCbs := insertA s.openCbs dc peerID,
           msgCbs := insertA s.msgCbs dc peerID }

/-- Register: logs, sends the `register` envelope, logs success. -/
def Register (s : ClientState) : ClientState :=
  let s1 := { s with logs := s.logs ++ [LogEntry.sendingRegister] }
  let s2 := { s1 with outbound := s1.outbound ++ [OutMsg.mk "register" OutPayload.empty] }
  { s2 with logs := s2.logs ++ [LogEntry.registerSent] }

/-- ConnectToPeer; the Except value is the Go error result. -/
def ConnectToPeer (env : NegEnv) (peerID : String) (s : ClientState) :
    Except Unit Unit × ClientState :=
  match newPeerConnection env s with
  | (none, s1) => (.error (), s1)
  | (some pc, s1) =>
  match createDataChannel env s1 with
  | (none, s2) => (.error (), s2)
  | (some dc, s2) =>
  let s3 := setupDataChannel dc peerID s2
  match createOffer env s3 with
  | (none, s4) => (.error (), s4)
  | (some offerSDP, s4) =>
  match setLocalDescription env s4 with
  | (false, s5) => (.error (), s5)
  | (true, s5) =>
  let s6 := { s5 with peerConns := insertA s5.peerConns peerID pc }
  let s7 := { s6 with outbound :=
                s6.outbound ++ [OutMsg.mk "offer" (OutPayload.offerP peerID offerSDP)] }
  (.ok (), s7)

/-- SendMessage: sends on the stored channel if one is open, otherwise prints
the no-open-data-channel notice. -/
def SendMessage (peerID message : String) (s : ClientState) : ClientState :=
  match lookupA s.dataChannels peerID with
  | some dc =>
      { s with sends := s.sends ++ [(dc, message)],
               console := s.console ++ [ConsoleMsg.messageSent peerID message] }
  | none =>
      { s with console := s.console ++ [ConsoleMsg.noOpenChannel peerID] }

/-- handleOffer; the Except value records whether the Go function returned
early on a collaborator error. -/
def handleOffer (env : NegEnv) (offer : SessionDesc) (sourcePeerID : String)
    (s : ClientState) : Except Unit Unit × ClientState :=
  match newPeerConnection env s with
  | (none, s1) => (.error (), { s1 with logs := s1.logs ++ [LogEntry.errCreatePC] })
  | (some pc, s1) =>
  let s2 := { s1 with onDCCbs := insertA s1.onDCCbs pc sourcePeerID }
  match setRemoteDescription env s2 with
  | (false, s3) => (.error (), { s3 with logs := s3.logs ++ [LogEntry.errSetRemote] })
  | (true, s3) =>
  match createAnswer env s3 with
  | (none, s4) => (.error (), { s4 with logs := s4.logs ++ [LogEntry.errCreateAnswer] })
  | (some answerSDP, s4) =>
  match setLocalDescription env s4 with
  | (false, s5) => (.error (), { s5 with logs := s5.logs ++ [LogEntry.errSetLocal] })
  | (true, s5) =>
  let s6 := { s5 with peerConns := insertA s5.peerConns sourcePeerID pc }
  let s7 := { s6 with outbound :=
                s6.outbound ++ [OutMsg.mk "answer" (OutPayload.answerP sourcePeerID answerSDP)] }
  (.ok (), s7)

/-- handleAnswer: applies the answer only when a session exists; the
SetRemoteDescription error is discarded by the source. -/
def handleAnswer (env : NegEnv) (answer : SessionDesc) (sourcePeerID : String)
    (s : ClientState) : ClientState :=
  match lookupA s.peerConns sourcePeerID with
  | some pc => (setRemoteDescription env s).2
  | none => s

/-- handleICECandidate: applies the candidate only when a session exists; the
AddICECandidate error is discarded by the source. -/
def handleICECandidate (env : NegEnv) (candidate : String) (sourcePeerID : String)
    (s : ClientState) : ClientState :=
  match lookupA s.peerConns sourcePeerID with
  | some pc => (addICECandidate env s).2
  | none => s

/-- The OnOpen callback registered by setupDataChannel firing for data
channel `dc`: prints the notice and stores the channel for its peer. -/
def fireOpen (dc : Nat) (s : ClientState) : ClientState :=
  match lookupA s.openCbs dc with
  | some p =>
      { s with console := s.console ++ [ConsoleMsg.dataChannelOpened p],
               dataChannels := insertA s.dataChannels p dc }
  | none => s

/-- The OnMessage callback firing for data channel `dc`. -/
def fireMessage (dc : Nat) (data : String) (s : ClientState) : ClientState :=
  match lookupA s.msgCbs dc with
  | some p => { s with console := s.console ++ [ConsoleMsg.recvFromPeer p data] }
  | none => s

/-- The OnDataChannel callback registered by handleOffer firing: the remote
side opened data channel `dc` on peer connection `pc`. -/
def fireDataChannel (pc dc : Nat) (s : ClientState) : ClientState :=
  match lookupA s.onDCCbs pc with
  | some p => setupDataChannel dc p s
  | none => s

/-- One item of the inbound websocket stream: either a frame that ReadJSON
fails to decode (with the unexpected-close distinction made by the source,
which only changes the log line) or a decoded envelope. -/
inductive ReadItem : Type where
  | badFrame (unexpectedClose : Bool) : ReadItem
  | frame (m : InMessage) : ReadItem

/-- The body of one handleIncomingMessages iteration for a successfully read
envelope: the two generic log lines, then the switch on the envelope type.
Unknown types fall through silently. For `offer` / `answer` / `ice-candidate`
the payload decode error is ignored by the source, so the handler runs on the
best-effort values. -/
def dispatchMessage (env : NegEnv) (m : InMessage) (s : ClientState) : ClientState :=
  let s1 := { s with logs := s.logs ++ [LogEntry.recvType m.type, LogEntry.fullMsg] }
  if m.type = "registered" then
    match decodeRegisteredPayload m.payload with
    | .error () => { s1 with logs := s1.logs ++ [LogEntry.unmarshalRegisteredErr] }
    | .ok pid =>
      if pid = "" then { s1 with logs := s1.logs ++ [LogEntry.emptyPeerID] }
      else { s1 with peerID := pid,
                     logs := s1.logs ++ [LogEntry.registeredAs pid],
                     console := s1.console ++ [ConsoleMsg.registeredAs pid] }
  else if m.type = "offer" then
    let d := decodeDescPayload "offer" m.payload
    (handleOffer env d.1.1 d.1.2 s1).2
  else if m.type = "answer" then
    let d := decodeDescPayload "answer" m.payload
    handleAnswer env d.1.1 d.1.2 s1
  else if m.type = "ice-candidate" then
    let d := decodeICEPayload m.payload
    handleICECandidate env d.1.1 d.1.2 s1
  else s1

/-- handleIncomingMessages over a finite prefix of the inbound stream: a
ReadJSON failure logs and returns, so the rest of the stream is never
consumed; otherwise the loop dispatches and continues. -/
def handleIncomingMessages (env : NegEnv) : List ReadItem → ClientState → ClientState
  | [], s => s
  | .badFrame u :: _, s =>
      { s with logs := s.logs ++
          [if u then LogEntry.wsClosedUnexpected else LogEntry.readError] }
  | .frame m :: rest, s => handleIncomingMessages env rest (dispatchMessage env m s)

/-- Go strings.SplitN(s, sep, n) step for sep = a single space: the text up
to the first space and, when a space exists, the remainder after it. -/
def splitOnceSpace : List Char → List Char × Option (List Char)
  | [] => ([], none)
  | c :: rest =>
      if c = ' ' then ([], some rest)
      else
        let r := splitOnceSpace rest
        (c :: r.1, r.2)

/-- Go strings.SplitN(s, " ", 3) on character lists: at most three fields,
the last one being the unsplit remainder. -/
def splitN3 (l : List Char) : List (List Char) :=
  match splitOnceSpace l with
  | (a, none) => [a]
  | (a, some r1) =>
    match splitOnceSpace r1 with
    | (b, none) => [a, b]
    | (b, some r2) => [a, b, r2]

/-- strings.SplitN(line, " ", 3) on strings. -/
def splitN3s (line : String) : List String :=
  (splitN3 line.data).map (fun l => String.mk l)

/-- One iteration of the main command loop on an input line; `none` means the
loop returned (the `exit` command). -/
def commandStep (env : NegEnv) (line : String) (s : ClientState) : Option ClientState :=
  let parts := splitN3s line
  let head := parts.headD ""
  if head = "register" then some (Register s)
  else if head = "connect" then
    if parts.length < 2 then
      some { s with console := s.console ++ [ConsoleMsg.usageConnect] }
    else
      match ConnectToPeer env (parts.getD 1 "") s with
      | (.error (), s1) => some { s1 with console := s1.console ++ [ConsoleMsg.errConnecting] }
      | (.ok (), s1) => some s1
  else if head = "send" then
    if parts.length < 3 then
      some { s with console := s.console ++ [ConsoleMsg.usageSend] }
    else some (SendMessage (parts.getD 1 "") (parts.getD 2 "") s)
  else if head = "exit" then none
  else some { s with console := s.console ++ [ConsoleMsg.unknownCmd] }

/-- An oracle on which every collaborator operation succeeds, with fixed
non-empty SDP blobs. -/
def envOK : NegEnv :=
  { pcFail := fun _ => false,
    dcFail := fun _ => false,
    createOfferFail := fun _ => false,
    offerSDPAt := fun _ => "mock-offer-sdp",
    createAnswerFail := fun _ => false,
    answerSDPAt := fun _ => "mock-answer-sdp",
    setLocalFail := fun _ => false,
    setRemoteFail := fun _ => false,
    addICEFail := fun _ => false }

/-- An oracle on which connection-object creation always fails. -/
def envFailPC : NegEnv :=
  { envOK with pcFail := fun _ => true }

/-- Number of bindings a registry holds for one key. -/
def keyCount {α β : Type} [DecidableEq α] (l : List (α × β)) (k : α) : Nat :=
  (l.filter (fun p => decide (p.1 = k))).length

/-- Reading a Go map after a write: the written key returns the new value,
every other key is unaffected. -/
theorem lookupA_insertA {α β : Type} [DecidableEq α] (l : List (α × β)) (j k : α) (v : β) :
    lookupA (insertA l j v) k = if j = k then some v else lookupA l k := by
  induction l with
  | nil => simp [insertA, lookupA]
  | cons p rest ih =>
      by_cases hp : p.1 = j
      · by_cases hj : j = k <;> simp [insertA, hp, lookupA, hj]
      · by_cases hpk : p.1 = k
        · have hj : ¬ j = k := fun hh => hp (by rw [hpk, hh])
          have hj2 : ¬ k = j := fun hh => hj hh.symm
          simp [insertA, hp, lookupA, hpk, hj, hj2]
        · simp [insertA, hp, lookupA, hpk, ih]

/-- Unfolding keyCount over a cons cell. -/
theorem keyCount_cons {α β : Type} [DecidableEq α] (p : α × β) (rest : List (α × β)) (k : α) :
    keyCount (p :: rest) k = (if p.1 = k then 1 else 0) + keyCount rest k := by
  by_cases hp : p.1 = k
  · simp [keyCount, List.filter_cons, hp, Nat.add_comm]
  · simp [keyCount, List.filter_cons, hp]

/-- Writing to a Go map that holds at most one binding for the key leaves it
with exactly one binding for the key. -/
theorem keyCount_insertA {α β : Type} [DecidableEq α] (l : List (α × β)) (k : α) (v : β)
    (h : keyCount l k ≤ 1) : keyCount (insertA l k v) k = 1 := by
  induction l with
  | nil => simp [insertA, keyCount]
  | cons p rest ih =>
      by_cases hp : p.1 = k
      · have h2 : keyCount rest k = 0 := by
          rw [keyCount_cons] at h
          simp [hp] at h
          omega
        simp [insertA, hp, keyCount_cons, h2]
      · have h2 : keyCount rest k ≤ 1 := by
          rw [keyCount_cons] at h
          simpa [hp] using h
        simp [insertA, hp, keyCount_cons, ih h2]

/-- Evaluation of ConnectToPeer under the all-success oracle. -/
theorem ConnectToPeer_envOK (P : String) (s : ClientState) :
    ConnectToPeer envOK P s =
      (.ok (), { s with
        ops := s.ops + 4,
        nextPC := s.nextPC + 1,
        nextDC := s.nextDC + 1,
        openCbs := insertA s.openCbs s.nextDC P,
        msgCbs := insertA s.msgCbs s.nextDC P,
        peerConns := insertA s.peerConns P s.nextPC,
        outbound := s.outbound ++
          [OutMsg.mk "offer" (OutPayload.offerP P "mock-offer-sdp")] }) := rfl

/-- Evaluation of handleOffer under the all-success oracle. -/
theorem handleOffer_envOK (sd : SessionDesc) (src : String) (s : ClientState) :
    handleOffer envOK sd src s =
      (.ok (), { s with
        ops := s.ops + 4,
        nextPC := s.nextPC + 1,
        onDCCbs := insertA s.onDCCbs s.nextPC src,
        peerConns := insertA s.peerConns src s.nextPC,
        outbound := s.outbound ++
          [OutMsg.mk "answer" (OutPayload.answerP src "mock-answer-sdp")] }) := rfl

/-- Dispatch of an `answer` envelope, unfolded. -/
theorem dispatchMessage_answer (env : NegEnv) (pl : Option JVal) (s : ClientState) :
    dispatchMessage env (InMessage.mk "answer" pl) s
      = handleAnswer env (decodeDescPayload "answer" pl).1.1
          (decodeDescPayload "answer" pl).1.2
          { s with logs := s.logs ++ [LogEntry.recvType "answer", LogEntry.fullMsg] } := rfl

/-- Dispatch of an `offer` envelope, unfolded. -/
theorem dispatchMessage_offer (env : NegEnv) (pl : Option JVal) (s : ClientState) :
    dispatchMessage env (InMessage.mk "offer" pl) s
      = (handleOffer env (decodeDescPayload "offer" pl).1.1
          (decodeDescPayload "offer" pl).1.2
          { s with logs := s.logs ++ [LogEntry.recvType "offer", LogEntry.fullMsg] }).2 := rfl

/-- Dispatch of an `ice-candidate` envelope, unfolded. -/
theorem dispatchMessage_ice (env : NegEnv) (pl : Option JVal) (s : ClientState) :
    dispatchMessage env (InMessage.mk "ice-candidate" pl) s
      = handleICECandidate env (decodeICEPayload pl).1.1 (decodeICEPayload pl).1.2
          { s with logs := s.logs ++ [LogEntry.recvType "ice-candidate", LogEntry.fullMsg] } := rfl

/-- State after a first ConnectToPeer("p") from the fresh client. -/
def c1s1 : ClientState := (ConnectToPeer envOK "p" initState).2

/-- State after a second ConnectToPeer("p"). -/
def c1s2 : ClientState := (ConnectToPeer envOK "p" c1s1).2

/-- C1 counterexample: obtaining a session for the same peer twice is not
idempotent. The first ConnectToPeer("p") stores connection object 0; the
second call creates a second connection object (two allocations happened:
nextPC = 2) and stores it, so the stored session instance differs. -/
theorem claim1_counterexample :
    lookupA c1s1.peerConns "p" = some 0 ∧
    lookupA c1s2.peerConns "p" = some 1 ∧
    c1s2.nextPC = 2 ∧
    lookupA c1s2.peerConns "p" ≠ lookupA c1s1.peerConns "p" := by
  decide

/-- C1 amended: the registry holds at most one (afterwards exactly one)
binding per peer identifier, but obtaining a session twice is not idempotent:
each ConnectToPeer(P) creates a fresh connection object and overwrites the
stored one, so the second call replaces the first call's session instance. -/
theorem claim1_amended (s : ClientState) (P : String)
    (h : keyCount s.peerConns P ≤ 1) :
    lookupA (ConnectToPeer envOK P s).2.peerConns P = some s.nextPC ∧
    lookupA (ConnectToPeer envOK P (ConnectToPeer envOK P s).2).2.peerConns P
      = some (s.nextPC + 1) ∧
    some (s.nextPC + 1) ≠ (some s.nextPC : Option Nat) ∧
    keyCount (ConnectToPeer envOK P (ConnectToPeer envOK P s).2).2.peerConns P = 1 := by
  rw [ConnectToPeer_envOK, ConnectToPeer_envOK]
  refine ⟨?_, ?_, ?_, ?_⟩
  · simp [lookupA_insertA]
  · simp [lookupA_insertA]
  · simp
  · have h1 : keyCount (insertA s.peerConns P s.nextPC) P = 1 := keyCount_insertA _ _ _ h
    exact keyCount_insertA _ _ _ (by simp [h1])

/-- Witness for claim1_amended at the fresh client and peer "p". -/
theorem claim1_amended_witness :
    lookupA (ConnectToPeer envOK "p" initState).2.peerConns "p" = some initState.nextPC ∧
    lookupA (ConnectToPeer envOK "p" (ConnectToPeer envOK "p" initState).2).2.peerConns "p"
      = some (initState.nextPC + 1) ∧
    some (initState.nextPC + 1) ≠ (some initState.nextPC : Option Nat) ∧
    keyCount (ConnectToPeer envOK "p" (ConnectToPeer envOK "p" initState).2).2.peerConns "p" = 1 :=
  claim1_amended initState "p" (by decide)

/-- Inbound `offer` envelope whose payload is malformed (a JSON string where
the object is expected). -/
def c2MalformedOffer : ReadItem :=
  ReadItem.frame (InMessage.mk "offer" (some (JVal.str "garbage")))

/-- A well-formed `registered` envelope carrying peerId "abc". -/
def c2GoodRegistered : ReadItem :=
  ReadItem.frame (InMessage.mk "registered" (some (JVal.obj [("peerId", JVal.str "abc")])))

/-- The dispatcher run on the malformed offer followed by the good
registered envelope, all collaborator calls succeeding. -/
def c2Run : ClientState :=
  handleIncomingMessages envOK [c2MalformedOffer, c2GoodRegistered] initState

/-- C2 counterexample: a malformed `offer` payload is neither logged as a
failure nor dropped. The log trace holds only the generic per-message lines
(no decode-failure entry anywhere), yet the message was acted upon: a session
was stored under the zero-value source "" and an outbound `answer` envelope
was emitted for it, refuting "the dispatcher logs the failure, drops that
message". -/
theorem claim2_counterexample :
    c2Run.logs = [LogEntry.recvType "offer", LogEntry.fullMsg,
                  LogEntry.recvType "registered", LogEntry.fullMsg,
                  LogEntry.registeredAs "abc"] ∧
    c2Run.peerConns = [("", 0)] ∧
    c2Run.outbound = [OutMsg.mk "answer" (OutPayload.answerP "" "mock-answer-sdp")] := by
  decide

/-- C2 amended: a malformed `registered` payload is logged, dropped and the
dispatch loop continues (so a later well-formed `registered` envelope is
still processed); for `offer`, `answer` and `ice-candidate` envelopes the
payload decode error is ignored and the handler is invoked on the
best-effort decoded values, with no decode-failure log entry (the state the
handler receives carries only the two generic per-message log lines) and the
loop again continuing with the rest of the stream. -/
theorem claim2_amended :
    (∀ (env : NegEnv) (s : ClientState) (pl : Option JVal) (rest : List ReadItem),
      decodeRegisteredPayload pl = .error () →
      handleIncomingMessages env (ReadItem.frame (InMessage.mk "registered" pl) :: rest) s
        = handleIncomingMessages env rest
            { s with logs := s.logs ++ [LogEntry.recvType "registered", LogEntry.fullMsg,
                                        LogEntry.unmarshalRegisteredErr] }) ∧
    (∀ (env : NegEnv) (s : ClientState) (pl : Option JVal) (rest : List ReadItem),
      handleIncomingMessages env (ReadItem.frame (InMessage.mk "offer" pl) :: rest) s
        = handleIncomingMessages env rest
            (handleOffer env (decodeDescPayload "offer" pl).1.1
              (decodeDescPayload "offer" pl).1.2
              { s with logs := s.logs ++ [LogEntry.recvType "offer", LogEntry.fullMsg] }).2) ∧
    (∀ (env : NegEnv) (s : ClientState) (pl : Option JVal) (rest : List ReadItem),
      handleIncomingMessages env (ReadItem.frame (InMessage.mk "answer" pl) :: rest) s
        = handleIncomingMessages env rest
            (handleAnswer env (decodeDescPayload "answer" pl).1.1
              (decodeDescPayload "answer" pl).1.2
              { s with logs := s.logs ++ [LogEntry.recvType "answer", LogEntry.fullMsg] })) ∧
    (∀ (env : NegEnv) (s : ClientState) (pl : Option JVal) (rest : List ReadItem),
      handleIncomingMessages env (ReadItem.frame (InMessage.mk "ice-candidate" pl) :: rest) s
        = handleIncomingMessages env rest
            (handleICECandidate env (decodeICEPayload pl).1.1 (decodeICEPayload pl).1.2
              { s with logs := s.logs ++ [LogEntry.recvType "ice-candidate",
                                          LogEntry.fullMsg] })) := by
  refine ⟨?_, ?_, ?_, ?_⟩
  · intro env s pl rest h
    have e : dispatchMessage env (InMessage.mk "registered" pl) s
        = { s with logs := s.logs ++ [LogEntry.recvType "registered", LogEntry.fullMsg,
                                      LogEntry.unmarshalRegisteredErr] } := by
      simp [dispatchMessage, h]
    simp [handleIncomingMessages, e]
  · intro env s pl rest
    rfl
  · intro env s pl rest
    rfl
  · intro env s pl rest
    rfl

/-- Witness for claim2_amended at a concrete malformed registered payload. -/
theorem claim2_amended_witness :
    handleIncomingMessages envOK
        [ReadItem.frame (InMessage.mk "registered" (some (JVal.str "bad")))] initState
      = handleIncomingMessages envOK []
          { initState with logs := initState.logs ++
              [LogEntry.recvType "registered", LogEntry.fullMsg,
               LogEntry.unmarshalRegisteredErr] } :=
  claim2_amended.1 envOK initState (some (JVal.str "bad")) [] rfl

/-- C3: an inbound `answer` or `ice-candidate` envelope whose (decoded)
source peer has no session in the registry is a no-op: the state is
unchanged except for the two generic per-message log lines, no envelope is
emitted, no session is created or mutated, and the dispatch loop continues
with the rest of the stream. -/
theorem claim3_unknown_session_noop :
    (∀ (env : NegEnv) (s : ClientState) (pl : Option JVal) (rest : List ReadItem),
      lookupA s.peerConns (decodeDescPayload "answer" pl).1.2 = none →
      handleIncomingMessages env (ReadItem.frame (InMessage.mk "answer" pl) :: rest) s
        = handleIncomingMessages env rest
            { s with logs := s.logs ++ [LogEntry.recvType "answer", LogEntry.fullMsg] }) ∧
    (∀ (env : NegEnv) (s : ClientState) (pl : Option JVal) (rest : List ReadItem),
      lookupA s.peerConns (decodeICEPayload pl).1.2 = none →
      handleIncomingMessages env (ReadItem.frame (InMessage.mk "ice-candidate" pl) :: rest) s
        = handleIncomingMessages env rest
            { s with logs := s.logs ++ [LogEntry.recvType "ice-candidate", LogEntry.fullMsg] }) := by
  constructor
  · intro env s pl rest h
    simp [handleIncomingMessages, dispatchMessage_answer, handleAnswer, h]
  · intro env s pl rest h
    simp [handleIncomingMessages, dispatchMessage_ice, handleICECandidate, h]

/-- Witness for claim3_unknown_session_noop: an answer and a candidate from
source "q" against the fresh client, which has no session at all. -/
theorem claim3_witness :
    handleIncomingMessages envOK
        [ReadItem.frame (InMessage.mk "answer" (some (JVal.obj [("source", JVal.str "q")])))]
        initState
      = handleIncomingMessages envOK []
          { initState with logs := initState.logs ++
              [LogEntry.recvType "answer", LogEntry.fullMsg] } ∧
    handleIncomingMessages envOK
        [ReadItem.frame (InMessage.mk "ice-candidate" (some (JVal.obj [("source", JVal.str "q")])))]
        initState
      = handleIncomingMessages envOK []
          { initState with logs := initState.logs ++
              [LogEntry.recvType "ice-candidate", LogEntry.fullMsg] } :=
  ⟨claim3_unknown_session_noop.1 envOK initState (some (JVal.obj [("source", JVal.str "q")])) [] rfl,
   claim3_unknown_session_noop.2 envOK initState (some (JVal.obj [("source", JVal.str "q")])) [] rfl⟩

/-- C9: guarded update of the local identity. A `registered` envelope whose
payload fails to decode is logged and leaves the peer id unchanged; one that
decodes to the empty peer id is logged and leaves it unchanged; only a
non-empty decoded peer id overwrites the local identity. The loop continues
with the rest of the stream in all three cases. -/
theorem claim9_registered_guard :
    (∀ (env : NegEnv) (s : ClientState) (pl : Option JVal) (rest : List ReadItem),
      decodeRegisteredPayload pl = .error () →
      handleIncomingMessages env (ReadItem.frame (InMessage.mk "registered" pl) :: rest) s
        = handleIncomingMessages env rest
            { s with logs := s.logs ++ [LogEntry.recvType "registered", LogEntry.fullMsg,
                                        LogEntry.unmarshalRegisteredErr] }) ∧
    (∀ (env : NegEnv) (s : ClientState) (pl : Option JVal) (rest : List ReadItem),
      decodeRegisteredPayload pl = .ok "" →
      handleIncomingMessages env (ReadItem.frame (InMessage.mk "registered" pl) :: rest) s
        = handleIncomingMessages env rest
            { s with logs := s.logs ++ [LogEntry.recvType "registered", LogEntry.fullMsg,
                                        LogEntry.emptyPeerID] }) ∧
    (∀ (env : NegEnv) (s : ClientState) (pl : Option JVal) (rest : List ReadItem) (pid : String),
      decodeRegisteredPayload pl = .ok pid → pid ≠ "" →
      handleIncomingMessages env (ReadItem.frame (InMessage.mk "registered" pl) :: rest) s
        = handleIncomingMessages env rest
            { s with peerID := pid,
                     logs := s.logs ++ [LogEntry.recvType "registered", LogEntry.fullMsg,
                                        LogEntry.registeredAs pid],
                     console := s.console ++ [ConsoleMsg.registeredAs pid] }) := by
  refine ⟨?_, ?_, ?_⟩
  · intro env s pl rest h
    simp [handleIncomingMessages, dispatchMessage, h]
  · intro env s pl rest h
    simp [handleIncomingMessages, dispatchMessage, h]
  · intro env s pl rest pid h hpid
    simp [handleIncomingMessages, dispatchMessage, h, hpid]

/-- Witness for claim9_registered_guard: a well-formed registered payload
with the non-empty peer id "abc" overwrites the identity of the fresh
client. -/
theorem claim9_witness :
    handleIncomingMessages envOK
        [ReadItem.frame (InMessage.mk "registered" (some (JVal.obj [("peerId", JVal.str "abc")])))]
        initState
      = handleIncomingMessages envOK []
          { initState with
              peerID := "abc",
              logs := initState.logs ++ [LogEntry.recvType "registered", LogEntry.fullMsg,
                                         LogEntry.registeredAs "abc"],
              console := initState.console ++ [ConsoleMsg.registeredAs "abc"] } :=
  claim9_registered_guard.2.2 envOK initState (some (JVal.obj [("peerId", JVal.str "abc")]))
    [] "abc" rfl (by decide)

/-- An inbound `offer` envelope from the given source peer with a
well-formed payload. -/
def offerFrame (src : String) : ReadItem :=
  ReadItem.frame (InMessage.mk "offer"
    (some (JVal.obj [("offer", JVal.null), ("source", JVal.str src)])))

/-- Dispatch of one well-formed offer under the all-success oracle,
evaluated. -/
theorem dispatch_offerFrame_envOK (src : String) (s : ClientState) (rest : List ReadItem) :
    handleIncomingMessages envOK (offerFrame src :: rest) s
      = handleIncomingMessages envOK rest
          { s with
            logs := s.logs ++ [LogEntry.recvType "offer", LogEntry.fullMsg],
            ops := s.ops + 4,
            nextPC := s.nextPC + 1,
            onDCCbs := insertA s.onDCCbs s.nextPC src,
            peerConns := insertA s.peerConns src s.nextPC,
            outbound := s.outbound ++
              [OutMsg.mk "answer" (OutPayload.answerP src "mock-answer-sdp")] } := rfl

/-- Processing offers never removes a stored session. -/
theorem lookupA_offers_mono (srcs : List String) (s : ClientState) (k : String)
    (h : (lookupA s.peerConns k).isSome = true) :
    (lookupA (handleIncomingMessages envOK (srcs.map offerFrame) s).peerConns k).isSome
      = true := by
  induction srcs generalizing s with
  | nil => simpa [handleIncomingMessages] using h
  | cons a rest ih =>
      rw [List.map_cons, dispatch_offerFrame_envOK]
      apply ih
      by_cases hak : a = k <;> simp [lookupA_insertA, hak, h]

/-- C4: a sequence of inbound well-formed `offer` envelopes, processed with
every collaborator operation succeeding, appends to the outbound trace
exactly one `answer` envelope per offer, addressed to that offer's source
peer and in order, and leaves a stored session for every source peer. -/
theorem claim4_offer_sequence (srcs : List String) (s : ClientState) :
    (handleIncomingMessages envOK (srcs.map offerFrame) s).outbound
      = s.outbound ++ srcs.map
          (fun src => OutMsg.mk "answer" (OutPayload.answerP src "mock-answer-sdp")) ∧
    ∀ src, src ∈ srcs →
      (lookupA (handleIncomingMessages envOK (srcs.map offerFrame) s).peerConns src).isSome
        = true := by
  induction srcs generalizing s with
  | nil => simp [handleIncomingMessages]
  | cons a rest ih =>
      rw [List.map_cons, dispatch_offerFrame_envOK]
      constructor
      · rw [(ih _).1]
        simp
      · intro src hsrc
        cases hsrc with
        | head => exact lookupA_offers_mono rest _ a (by simp [lookupA_insertA])
        | tail _ h => exact (ih _).2 src h

/-- Witness for claim4_offer_sequence: two offers from "a" and "b" against
the fresh client leave a stored session for "a". -/
theorem claim4_witness :
    (lookupA (handleIncomingMessages envOK
        (["a", "b"].map offerFrame) initState).peerConns "a").isSome = true :=
  (claim4_offer_sequence ["a", "b"] initState).2 "a" (by decide)

/-- A synthetic inbound `answer` envelope sourced from peer P. -/
def c6AnswerFrame (P : String) : ReadItem :=
  ReadItem.frame (InMessage.mk "answer"
    (some (JVal.obj [("answer", JVal.null), ("source", JVal.str P)])))

/-- The C6 pipeline: connect(P) from the fresh client, then the inbound
answer from P, then the open callback of the data channel created by the
connect (handle 0) firing. -/
def c6AfterOpen (P : String) : ClientState :=
  fireOpen 0 (handleIncomingMessages envOK [c6AnswerFrame P]
    (ConnectToPeer envOK P initState).2)

/-- C6: connect(P) succeeds; after the answer from P and the channel-open
callback the session is Open (the channel handle is stored for P, and it is
the channel the connect created); a subsequent send(P, msg) then invokes the
stored channel's send exactly once with exactly msg, the only other state
change being the console notice. -/
theorem claim6_roundtrip (P msg : String) :
    (ConnectToPeer envOK P initState).1 = .ok () ∧
    lookupA (c6AfterOpen P).dataChannels P = some 0 ∧
    (c6AfterOpen P).sends = [] ∧
    SendMessage P msg (c6AfterOpen P)
      = { c6AfterOpen P with
            sends := (c6AfterOpen P).sends ++ [(0, msg)],
            console := (c6AfterOpen P).console ++ [ConsoleMsg.messageSent P msg] } := by
  have e1 : (ConnectToPeer envOK P initState).2 =
      { peerID := "", peerConns := [(P, 0)], dataChannels := [],
        openCbs := [(0, P)], msgCbs := [(0, P)], onDCCbs := [],
        outbound := [OutMsg.mk "offer" (OutPayload.offerP P "mock-offer-sdp")],
        logs := [], console := [], sends := [], ops := 4, nextPC := 1, nextDC := 1 } := rfl
  have edec : decodeDescPayload "answer"
      (some (JVal.obj [("answer", JVal.null), ("source", JVal.str P)]))
      = ((zeroSD, P), false) := rfl
  have e2 : c6AfterOpen P =
      { peerID := "", peerConns := [(P, 0)], dataChannels := [(P, 0)],
        openCbs := [(0, P)], msgCbs := [(0, P)], onDCCbs := [],
        outbound := [OutMsg.mk "offer" (OutPayload.offerP P "mock-offer-sdp")],
        logs := [LogEntry.recvType "answer", LogEntry.fullMsg],
        console := [ConsoleMsg.dataChannelOpened P],
        sends := [], ops := 5, nextPC := 1, nextDC := 1 } := by
    unfold c6AfterOpen c6AnswerFrame
    rw [e1]
    simp only [handleIncomingMessages, dispatchMessage_answer, edec]
    simp [handleAnswer, lookupA, setRemoteDescription, tick, fireOpen, insertA, envOK]
  refine ⟨rfl, ?_, ?_, ?_⟩
  · simp [e2, lookupA]
  · simp [e2]
  · simp [e2, SendMessage, lookupA]

/-- Rebuilding a string from its character list is the identity. -/
theorem mk_data (s : String) : String.mk s.data = s := rfl

/-- Taking the character list of a rebuilt string is the identity. -/
theorem data_mk (l : List Char) : (String.mk l).data = l := rfl

/-- Splitting at the first space of `p ++ " " ++ r` when p has no space
yields p and the remainder r. -/
theorem splitOnceSpace_no_space_append (p r : List Char) (h : (' ') ∉ p) :
    splitOnceSpace (p ++ (' ') :: r) = (p, some r) := by
  induction p with
  | nil => simp [splitOnceSpace]
  | cons c cs ih =>
      simp only [List.mem_cons, not_or] at h
      have hc : ¬ c = ' ' := fun hh => h.1 hh.symm
      simp [splitOnceSpace, hc, ih h.2]

/-- SplitN with limit 3 on a line of the shape `send <p> <rest>`: the third
field is the whole remainder after the second space, spaces included. -/
theorem splitN3_send (p m : List Char) (hp : (' ') ∉ p) :
    splitN3 ("send ".data ++ (p ++ (' ') :: m)) = ["send".data, p, m] := by
  have h2 := splitOnceSpace_no_space_append p m hp
  simp only [splitN3,
    show splitOnceSpace ("send ".data ++ (p ++ (' ') :: m))
      = ("send".data, some (p ++ (' ') :: m)) from rfl, h2]

/-- The command loop step on a line whose three SplitN parts are
`send`, a peer id and a message, runs SendMessage on them. -/
theorem commandStep_send_parts (env : NegEnv) (s : ClientState) (line : String)
    (pp mm : String) (h : splitN3s line = ["send", pp, mm]) :
    commandStep env line s = some (SendMessage pp mm s) := by
  simp [commandStep, h]

/-- C10: the command line is split into at most three space-separated parts,
and on a line `send <p> <m>` (p space-free, m arbitrary, so m may contain
spaces) the whole remainder after the second space is passed verbatim as the
single message argument of the send operation. -/
theorem claim10_splitn (p m : List Char) (env : NegEnv) (s : ClientState)
    (hp : (' ') ∉ p) :
    splitN3s (String.mk ("send ".data ++ (p ++ (' ') :: m)))
      = ["send", String.mk p, String.mk m] ∧
    commandStep env (String.mk ("send ".data ++ (p ++ (' ') :: m))) s
      = some (SendMessage (String.mk p) (String.mk m) s) ∧
    (∀ line : String, (splitN3s line).length ≤ 3) := by
  have hsp : splitN3s (String.mk ("send ".data ++ (p ++ (' ') :: m)))
      = ["send", String.mk p, String.mk m] := by
    simp only [splitN3s, data_mk]
    rw [splitN3_send p m hp]
    rfl
  refine ⟨hsp, commandStep_send_parts env s _ _ _ hsp, ?_⟩
  intro line
  simp only [splitN3s, List.length_map]
  rcases h1 : splitOnceSpace line.data with ⟨a, _ | r1⟩
  · simp [splitN3, h1]
  · rcases h2 : splitOnceSpace r1 with ⟨b, _ | r2⟩
    · simp [splitN3, h1, h2]
    · simp [splitN3, h1, h2]

/-- Witness for claim10_splitn on the line `send xyz hello world`. -/
theorem claim10_witness :
    splitN3s (String.mk ("send ".data ++ ("xyz".data ++ (' ') :: "hello world".data)))
      = ["send", String.mk "xyz".data, String.mk "hello world".data] :=
  (claim10_splitn "xyz".data "hello world".data envOK initState (by decide)).1

/-- C7: sending to a peer with no open data channel prints the
no-open-data-channel notice and changes nothing else (no data-channel
traffic, no session mutation); driven through the command loop, the `send`
line yields that same state and the loop continues (the step does not
return). -/
theorem claim7_send_without_channel (env : NegEnv) (s : ClientState) (p m : String)
    (hch : lookupA s.dataChannels p = none) (hp : (' ') ∉ p.data) :
    SendMessage p m s = { s with console := s.console ++ [ConsoleMsg.noOpenChannel p] } ∧
    commandStep env (String.mk ("send ".data ++ (p.data ++ (' ') :: m.data))) s
      = some { s with console := s.console ++ [ConsoleMsg.noOpenChannel p] } := by
  have h1 : SendMessage p m s
      = { s with console := s.console ++ [ConsoleMsg.noOpenChannel p] } := by
    simp [SendMessage, hch]
  refine ⟨h1, ?_⟩
  have hsp : splitN3s (String.mk ("send ".data ++ (p.data ++ (' ') :: m.data)))
      = ["send", String.mk p.data, String.mk m.data] := by
    simp only [splitN3s, data_mk]
    rw [splitN3_send p.data m.data hp]
    rfl
  rw [commandStep_send_parts env s _ _ _ hsp, mk_data, mk_data, h1]

/-- Witness for claim7_send_without_channel: `send xyz hello` on the fresh
client, which has no channel to "xyz". -/
theorem claim7_witness :
    SendMessage "xyz" "hello" initState
      = { initState with
          console := initState.console ++ [ConsoleMsg.noOpenChannel "xyz"] } :=
  (claim7_send_without_channel envOK initState "xyz" "hello" rfl (by decide)).1

/-- C8: whenever a collaborator operation fails during ConnectToPeer or
during handleOffer, the operation aborts with the registry in its prior
state: no session is stored for the peer, no envelope is emitted, and the
open-channel map is untouched. -/
theorem claim8_negotiation_abort (env : NegEnv) (P : String) (sd : SessionDesc)
    (src : String) (s : ClientState) :
    ((ConnectToPeer env P s).1 = .error () →
      (ConnectToPeer env P s).2.peerConns = s.peerConns ∧
      (ConnectToPeer env P s).2.outbound = s.outbound ∧
      (ConnectToPeer env P s).2.dataChannels = s.dataChannels) ∧
    ((handleOffer env sd src s).1 = .error () →
      (handleOffer env sd src s).2.peerConns = s.peerConns ∧
      (handleOffer env sd src s).2.outbound = s.outbound ∧
      (handleOffer env sd src s).2.dataChannels = s.dataChannels) := by
  constructor
  · cases h1 : env.pcFail s.ops with
    | true =>
        intro _
        simp [ConnectToPeer, newPeerConnection, tick, h1]
    | false =>
        cases h2 : env.dcFail (s.ops + 1) with
        | true =>
            intro _
            simp [ConnectToPeer, newPeerConnection, createDataChannel, tick, h1, h2]
        | false =>
            cases h3 : env.createOfferFail (s.ops + 2) with
            | true =>
                intro _
                simp [ConnectToPeer, newPeerConnection, createDataChannel, createOffer,
                      setupDataChannel, tick, h1, h2, h3]
            | false =>
                cases h4 : env.setLocalFail (s.ops + 3) with
                | true =>
                    intro _
                    simp [ConnectToPeer, newPeerConnection, createDataChannel, createOffer,
                          setLocalDescription, setupDataChannel, tick, h1, h2, h3, h4]
                | false =>
                    intro hc
                    exfalso
                    simp [ConnectToPeer, newPeerConnection, createDataChannel, createOffer,
                          setLocalDescription, setupDataChannel, tick, h1, h2, h3, h4] at hc
  · cases h1 : env.pcFail s.ops with
    | true =>
        intro _
        simp [handleOffer, newPeerConnection, tick, h1]
    | false =>
        cases h2 : env.setRemoteFail (s.ops + 1) with
        | true =>
            intro _
            simp [handleOffer, newPeerConnection, setRemoteDescription, tick, h1, h2]
        | false =>
            cases h3 : env.createAnswerFail (s.ops + 2) with
            | true =>
                intro _
                simp [handleOffer, newPeerConnection, setRemoteDescription, createAnswer,
                      tick, h1, h2, h3]
            | false =>
                cases h4 : env.setLocalFail (s.ops + 3) with
                | true =>
                    intro _
                    simp [handleOffer, newPeerConnection, setRemoteDescription, createAnswer,
                          setLocalDescription, tick, h1, h2, h3, h4]
                | false =>
                    intro hc
                    exfalso
                    simp [handleOffer, newPeerConnection, setRemoteDescription, createAnswer,
                          setLocalDescription, tick, h1, h2, h3, h4] at hc

/-- Witness for claim8_negotiation_abort under the oracle whose
connection-object creation always fails. -/
theorem claim8_witness :
    ((ConnectToPeer envFailPC "p" initState).2.peerConns = initState.peerConns ∧
     (ConnectToPeer envFailPC "p" initState).2.outbound = initState.outbound ∧
     (ConnectToPeer envFailPC "p" initState).2.dataChannels = initState.dataChannels) ∧
    ((handleOffer envFailPC zeroSD "q" initState).2.peerConns = initState.peerConns ∧
     (handleOffer envFailPC zeroSD "q" initState).2.outbound = initState.outbound ∧
     (handleOffer envFailPC zeroSD "q" initState).2.dataChannels = initState.dataChannels) :=
  ⟨(claim8_negotiation_abort envFailPC "p" zeroSD "q" initState).1 rfl,
   (claim8_negotiation_abort envFailPC "p" zeroSD "q" initState).2 rfl⟩

/-- The `registered` envelope of the C5 scenario, carrying peerId "abc". -/
def c5Registered : ReadItem :=
  ReadItem.frame (InMessage.mk "registered" (some (JVal.obj [("peerId", JVal.str "abc")])))

/-- The C5 scenario: the `register` command, then the relay's `registered`
reply with peerId "abc", then the `connect xyz` command, with all
collaborator operations succeeding. -/
def c5State : ClientState :=
  let s1 := (commandStep envOK "register" initState).getD initState
  let s2 := handleIncomingMessages envOK [c5Registered] s1
  (commandStep envOK "connect xyz" s2).getD s2

/-- C5: after register, registered("abc"), connect "xyz", the local identity
is "abc" and exactly one outbound envelope of type `offer` was sent; its
payload has target "xyz" and carries the collaborator's non-empty offer
description verbatim. -/
theorem claim5_scenario :
    c5State.peerID = "abc" ∧
    c5State.outbound.filter (fun m => decide (m.type = "offer"))
      = [OutMsg.mk "offer" (OutPayload.offerP "xyz" "mock-offer-sdp")] ∧
    "mock-offer-sdp" ≠ "" := by
  decide

end P2P
